import Mathlib

/-
Shallow embedding of DataNormalizer (src/main.py): the JSON value model,
the field resolver (get_field / safe_lambda), the CPU normalizer and the
per-item loop of the POST /machines handler (post_machines).  Python
floats are modelled as rationals (every numeric value the program's
contracts mention is exactly representable); Python dicts are modelled as
association lists in insertion order with unique keys.
-/

namespace MachineNorm

/-- A JSON-ish Python value as it flows through main.py: None, bool, int,
float (as ℚ), str, list, dict. -/
inductive Value where
  | vNull : Value
  | vBool (b : Bool) : Value
  | vInt (n : Int) : Value
  | vFloat (q : ℚ) : Value
  | vStr (s : String) : Value
  | vList (xs : List Value) : Value
  | vObj (fields : List (String × Value)) : Value

/-- A raw item's fields: a Python dict as an insertion-ordered association
list (keys unique, as in a dict). -/
abbrev RawItem := List (String × Value)

/-- The Python exceptions main.py raises or meets, with their `str(e)` text.
`str(KeyError(m))` is the message wrapped in single quotes; the other kinds
print the message plainly. -/
inductive PyExn where
  | keyError (msg : String) : PyExn
  | indexError (msg : String) : PyExn
  | valueError (msg : String) : PyExn
  | attributeError (msg : String) : PyExn
  | typeError (msg : String) : PyExn
deriving DecidableEq

/-- Python `str(e)` for an exception: KeyError wraps its message in quotes. -/
def PyExn.str : PyExn → String
  | .keyError m => "'" ++ m ++ "'"
  | .indexError m => m
  | .valueError m => m
  | .attributeError m => m
  | .typeError m => m

/-- The exception kinds caught by safe_lambda's
`except (KeyError, IndexError, ValueError, AttributeError)` clause. -/
def PyExn.caught : PyExn → Bool
  | .typeError _ => false
  | _ => true

/-- Python type name of a value, as it appears in TypeError/AttributeError
messages. -/
def Value.typeName : Value → String
  | .vNull => "NoneType"
  | .vBool _ => "bool"
  | .vInt _ => "int"
  | .vFloat _ => "float"
  | .vStr _ => "str"
  | .vList _ => "list"
  | .vObj _ => "dict"

/-- Python truthiness (`bool(v)`): None/False/0/0.0/""/[]/\x7b\x7d are falsy. -/
def Value.truthy : Value → Bool
  | .vNull => false
  | .vBool b => b
  | .vInt n => n != 0
  | .vFloat q => q != 0
  | .vStr s => !s.isEmpty
  | .vList xs => !xs.isEmpty
  | .vObj fs => !fs.isEmpty

/-- `isinstance(v, (int, float))` — Python bool is a subclass of int, so it
counts as numeric here. -/
def Value.isNumber : Value → Bool
  | .vInt _ => true
  | .vFloat _ => true
  | .vBool _ => true
  | _ => false

/-- `float(v)` for a value already known numeric (int, float or bool). -/
def Value.numToFloat : Value → ℚ
  | .vInt n => (n : ℚ)
  | .vFloat q => q
  | .vBool b => if b then 1 else 0
  | _ => 0

/-- `key in data` for a dict. -/
def hasKey (data : RawItem) (key : String) : Bool :=
  data.any (fun kv => kv.1 == key)

/-- `data[key]` for a dict, only meaningful when `hasKey` holds (defaults to
None otherwise). -/
def pyIndex (data : RawItem) (key : String) : Value :=
  ((data.find? (fun kv => kv.1 == key)).map (fun kv => kv.2)).getD Value.vNull

/-- `data.get(key)` for a dict: the value, or None (here: `none`) if absent. -/
def pyGet (data : RawItem) (key : String) : Option Value :=
  (data.find? (fun kv => kv.1 == key)).map (fun kv => kv.2)

/-- Python `s.lower()` restricted to ASCII (ordinal lowercase): lowercase
each character.  The program's field names are all ASCII. -/
def lowerStr (s : String) : String :=
  String.mk (s.data.map Char.toLower)

/-- The case-insensitive scan `for k in data: if k.lower() == key.lower():
return data[k]` — first key matching by ordinal lowercase equality wins, in
the dict's iteration order. -/
def lookupCI (data : RawItem) (key : String) : Option Value :=
  (data.find? (fun kv => lowerStr kv.1 == lowerStr key)).map (fun kv => kv.2)

/-- Splitting on whitespace runs, accumulating the current token reversed:
the recursion behind Python `s.split()`. -/
def splitWSAux : List Char → List Char → List String
  | [], acc => if acc.isEmpty then [] else [String.mk acc.reverse]
  | c :: cs, acc =>
      if c.isWhitespace then
        if acc.isEmpty then splitWSAux cs []
        else String.mk acc.reverse :: splitWSAux cs []
      else splitWSAux cs (c :: acc)

/-- Python `s.split()` with no separator: split on whitespace runs,
discarding empty pieces. -/
def pySplit (s : String) : List String :=
  splitWSAux s.data []

/-- Drop surrounding whitespace (Python's strip, as float() applies it). -/
def trimChars (cs : List Char) : List Char :=
  ((cs.dropWhile Char.isWhitespace).reverse.dropWhile Char.isWhitespace).reverse

/-- `s.startswith(pre)`. -/
def pyStartsWith (s pre : String) : Bool :=
  pre.data.isPrefixOf s.data

/-- The value of a digit run, most significant first. -/
def digitsVal (cs : List Char) : Nat :=
  cs.foldl (fun a c => a * 10 + (c.toNat - 48)) 0

/-- An unsigned decimal mantissa as Python float() accepts it:
`d+`, `d+.d*` or `.d+`. -/
def parseUnsigned (cs : List Char) : Option ℚ :=
  let intPart := cs.takeWhile (fun c => c.isDigit)
  let rest := cs.dropWhile (fun c => c.isDigit)
  match rest with
  | [] => if intPart.isEmpty then none else some ((digitsVal intPart : ℚ))
  | '.' :: frac =>
      if frac.all (fun c => c.isDigit) && (!intPart.isEmpty || !frac.isEmpty) then
        some ((digitsVal intPart : ℚ) + (digitsVal frac : ℚ) / ((10 : ℚ) ^ frac.length))
      else none
  | _ => none

/-- The numeric core of Python `float(string)`: optional sign, decimal
mantissa, optional exponent (the inf/nan and underscore forms are outside
the program's contracts and parse as failures here). -/
def parseFloatChars (cs : List Char) : Option ℚ :=
  let signed : Bool × List Char :=
    match cs with
    | '+' :: t => (false, t)
    | '-' :: t => (true, t)
    | t => (false, t)
  let neg := signed.1
  let body := signed.2
  let mant := body.takeWhile (fun c => c != 'e' && c != 'E')
  let rest := body.dropWhile (fun c => c != 'e' && c != 'E')
  let mval :=
    match rest with
    | [] => parseUnsigned mant
    | _ :: ex =>
        let esigned : Bool × List Char :=
          match ex with
          | '+' :: t => (false, t)
          | '-' :: t => (true, t)
          | t => (false, t)
        if esigned.2.isEmpty || !esigned.2.all (fun c => c.isDigit) then none
        else
          (parseUnsigned mant).map (fun q =>
            let p : ℚ := (10 : ℚ) ^ digitsVal esigned.2
            if esigned.1 then q / p else q * p)
  mval.map (fun q => if neg then -q else q)

/-- Python `float(s)` for a string: strip surrounding whitespace, parse;
on failure, ValueError with the original string quoted in the message. -/
def pyFloatOfString (s : String) : Except PyExn ℚ :=
  match parseFloatChars (trimChars s.data) with
  | some q => Except.ok q
  | none =>
      Except.error (PyExn.valueError
        ("could not convert string to float: '" ++ s ++ "'"))

/-- Python `float(v)` on an arbitrary value: numbers pass through, strings
are parsed, anything else is a TypeError. -/
def pyFloat : Value → Except PyExn ℚ
  | .vInt n => Except.ok (n : ℚ)
  | .vFloat q => Except.ok q
  | .vBool b => Except.ok (if b then 1 else 0)
  | .vStr s => pyFloatOfString s
  | v =>
      Except.error (PyExn.typeError
        ("float() argument must be a string or a real number, not '"
          ++ v.typeName ++ "'"))

/-- Python decimal text of an integer (`str(n)`): Lean's Int printing
matches it. -/
def intRepr (n : Int) : String := toString n

/-- Text of a float value. An integral float prints as `<int>.0` exactly as
Python does; the shortest-decimal repr Python uses for non-integral floats
is out of the model's scope (no contract of this program prints one), so a
num/den fallback stands in for it. -/
def floatRepr (q : ℚ) : String :=
  if q.den = 1 then intRepr q.num ++ ".0"
  else intRepr q.num ++ "/" ++ toString q.den

mutual

/-- Python `repr(v)`. String escaping and the alternate quote style Python
picks for strings containing a quote are not modelled (no contract of this
program reprs such a string). -/
def pyRepr : Value → String
  | .vNull => "None"
  | .vBool b => if b then "True" else "False"
  | .vInt n => intRepr n
  | .vFloat q => floatRepr q
  | .vStr s => "'" ++ s ++ "'"
  | .vList xs => "[" ++ String.intercalate ", " (pyReprList xs) ++ "]"
  | .vObj fs => "\x7b" ++ String.intercalate ", " (pyReprFields fs) ++ "\x7d"

/-- repr of each element of a list value. -/
def pyReprList : List Value → List String
  | [] => []
  | v :: vs => pyRepr v :: pyReprList vs

/-- repr of each key-value pair of a dict value. -/
def pyReprFields : List (String × Value) → List String
  | [] => []
  | kv :: fs => ("'" ++ kv.1 ++ "': " ++ pyRepr kv.2) :: pyReprFields fs

end

/-- Python `str(v)`: identity on strings, repr-like elsewhere. -/
def pyStr : Value → String
  | .vStr s => s
  | v => pyRepr v

/-- normalize_cpu from main.py: a list is joined with a comma-space after
`str` of each element; anything else is passed through `str`. -/
def normalize_cpu : Value → String
  | .vList xs => String.intercalate ", " (xs.map pyStr)
  | v => pyStr v

/-- A field descriptor as the mapping config supplies it: absent/None, a
plain or lambda string, or a list of candidate names.  `mInvalid` stands
for a truthy descriptor of any other runtime type, which get_field rejects
with "Invalid mapping type"; a falsy descriptor of another type (0, False)
behaves exactly like `mNone` through the `if not mapping` test. -/
inductive Mapping where
  | mNone : Mapping
  | mStr (s : String) : Mapping
  | mList (keys : List String) : Mapping
  | mInvalid : Mapping

/-- Python truthiness of the descriptor, as tested by `if not mapping`. -/
def Mapping.falsy : Mapping → Bool
  | .mNone => true
  | .mStr s => s.isEmpty
  | .mList keys => keys.isEmpty
  | .mInvalid => false

/-- The literal lambda string the spec calls `ram-string-first-token`. -/
def ramLambda : String := "lambda data: int(data['RAM'].split()[0])"

/-- The literal lambda string the spec calls `kib-to-gib`. -/
def kibLambda : String := "lambda data: int(data['mem']) / 1024"

/-- The literal lambda string for direct memory_gb access. -/
def memgbLambda : String := "lambda data: int(data['memory_gb'])"

/-- `float(v.split()[0])` for a value that is not numeric: only a string
has split (anything else is an AttributeError), and a whitespace-only
string yields an empty token list, hence an IndexError. -/
def splitFirstFloat : Value → Except PyExn ℚ
  | .vStr s =>
      match pySplit s with
      | [] => Except.error (PyExn.indexError "list index out of range")
      | t :: _ => pyFloatOfString t
  | v =>
      Except.error (PyExn.attributeError
        ("'" ++ v.typeName ++ "' object has no attribute 'split'"))

/-- One field access of the RAM transform: `float(data[f])` when the value
is numeric, else `float(data[f].split()[0])`. -/
def extractNum (data : RawItem) (f : String) : Except PyExn ℚ :=
  let v := pyIndex data f
  if v.isNumber then Except.ok v.numToFloat else splitFirstFloat v

/-- The fallback field names the RAM transform scans, in source order,
after the exact key `RAM` itself. -/
def ramFallbackFields : List String := ["memory", "mem", "ram", "Memory", "memory_gb"]

/-- The body of safe_lambda's first branch (the RAM transform): exact-key
`RAM` first, then the first present fallback field, else a KeyError. -/
def ramInner (data : RawItem) : Except PyExn ℚ :=
  if hasKey data "RAM" then extractNum data "RAM"
  else
    match ramFallbackFields.find? (fun f => hasKey data f) with
    | some f => extractNum data f
    | none => Except.error (PyExn.keyError "No valid memory field found")

/-- The body of safe_lambda's second branch (the KiB transform):
`float(data['mem']) / 1024` when `mem` is present, else `memory_gb` taken
verbatim when present; with neither key the branch falls off the end of
the function and Python returns None. -/
def kibInner (data : RawItem) : Except PyExn (Option ℚ) :=
  if hasKey data "mem" then
    (pyFloat (pyIndex data "mem")).map (fun q => some (q / 1024))
  else if hasKey data "memory_gb" then
    (pyFloat (pyIndex data "memory_gb")).map some
  else
    Except.ok none

/-- The body of safe_lambda's third branch: direct `memory_gb` access. -/
def memgbInner (data : RawItem) : Except PyExn ℚ :=
  if hasKey data "memory_gb" then pyFloat (pyIndex data "memory_gb")
  else Except.error (PyExn.keyError "No valid memory_gb field found")

/-- safe_lambda's try block: dispatch on the exact lambda string. -/
def lambdaBody (data : RawItem) (ls : String) : Except PyExn (Option ℚ) :=
  if ls == ramLambda then (ramInner data).map some
  else if ls == kibLambda then kibInner data
  else if ls == memgbLambda then (memgbInner data).map some
  else Except.error (PyExn.valueError ("Unsupported lambda expression: " ++ ls))

/-- safe_lambda from main.py: the dispatch body with KeyError, IndexError,
ValueError and AttributeError re-raised as
`ValueError("Failed to parse memory: " + str(e))`. -/
def safe_lambda (data : RawItem) (ls : String) : Except PyExn (Option ℚ) :=
  match lambdaBody data ls with
  | Except.ok v => Except.ok v
  | Except.error e =>
      if e.caught then
        Except.error (PyExn.valueError ("Failed to parse memory: " ++ e.str))
      else Except.error e

/-- get_field from main.py: a falsy descriptor resolves to None; a list of
candidates is scanned case-insensitively in candidate order; a plain
string is a case-insensitive lookup with `data.get` as last resort; a
string starting with `lambda ` dispatches to safe_lambda, any failure
re-raised as `ValueError("Lambda execution error: " + str(e))`; any other
descriptor is `ValueError("Invalid mapping type")`. -/
def get_field (data : RawItem) (mapping : Mapping) : Except PyExn (Option Value) :=
  if mapping.falsy then Except.ok none
  else
    match mapping with
    | Mapping.mNone => Except.ok none
    | Mapping.mList keys =>
        Except.ok (keys.findSome? (fun key => lookupCI data key))
    | Mapping.mStr s =>
        if pyStartsWith s "lambda " then
          match safe_lambda data s with
          | Except.ok v => Except.ok (v.map Value.vFloat)
          | Except.error e =>
              Except.error (PyExn.valueError ("Lambda execution error: " ++ e.str))
        else
          match lookupCI data s with
          | some v => Except.ok (some v)
          | none => Except.ok (pyGet data s)
    | Mapping.mInvalid => Except.error (PyExn.valueError "Invalid mapping type")

/-- One source's mapping spec: `maps.get` of each canonical field (a field
missing from the config dict is `mNone`). -/
structure MappingSpec where
  os : Mapping
  cpu : Mapping
  memory_gb : Mapping

/-- The record post_machines builds for one accepted item. -/
structure Record where
  os : Value
  cpu : String
  memory_gb : ℚ

/-- The outcome of one loop iteration of post_machines: an inserted record
or one appended error string. -/
inductive ItemResult where
  | accepted (r : Record) : ItemResult
  | rejected (msg : String) : ItemResult

/-- `x or ""` on a resolver result: None or a falsy value becomes the empty
string, a truthy value passes through. -/
def orEmptyStr : Option Value → Value
  | some v => if v.truthy then v else Value.vStr ""
  | none => Value.vStr ""

/-- One iteration of the post_machines loop, in the source's evaluation
order: the dict check, cpu resolution, memory resolution with the
None-skip, os resolution, float coercion of memory, then the required-field
validation.  Every exception raised inside the iteration is caught by the
surrounding `except Exception` and appended as `str(e)`. -/
def processItem (maps : MappingSpec) (item : Value) : ItemResult :=
  match item with
  | Value.vObj fields =>
      match get_field fields maps.cpu with
      | Except.error e => ItemResult.rejected e.str
      | Except.ok cpuRes =>
          let cpu_value := orEmptyStr cpuRes
          match get_field fields maps.memory_gb with
          | Except.error e => ItemResult.rejected e.str
          | Except.ok none => ItemResult.rejected "Missing memory_gb field"
          | Except.ok (some memory_value) =>
              match get_field fields maps.os with
              | Except.error e => ItemResult.rejected e.str
              | Except.ok osRes =>
                  match pyFloat memory_value with
                  | Except.error e => ItemResult.rejected e.str
                  | Except.ok mq =>
                      let record : Record :=
                        { os := orEmptyStr osRes
                          cpu := normalize_cpu cpu_value
                          memory_gb := mq }
                      if !record.os.truthy || record.cpu.isEmpty then
                        ItemResult.rejected "Missing required fields (os or cpu)"
                      else ItemResult.accepted record
  | _ => ItemResult.rejected "Item is not a valid JSON object"

/-- What the POST /machines handler accumulates over a batch: the inserted
count, the records passed to insert_record in order, and the error list. -/
structure NormResult where
  inserted : Nat
  records : List Record
  errors : List String

/-- The per-item loop of post_machines over an already-wrapped batch
(`[data] if isinstance(data, dict) else data`), accumulating inserted
records and error strings in batch order. -/
def post_machines (maps : MappingSpec) : List Value → NormResult
  | [] => { inserted := 0, records := [], errors := [] }
  | item :: rest =>
      let tail := post_machines maps rest
      match processItem maps item with
      | ItemResult.accepted r =>
          { inserted := tail.inserted + 1, records := r :: tail.records,
            errors := tail.errors }
      | ItemResult.rejected m =>
          { inserted := tail.inserted, records := tail.records,
            errors := m :: tail.errors }

/-- The mapping spec of source team_a as the tests exercise it: plain
direct-lookup descriptors for all three canonical fields. -/
def teamAMaps : MappingSpec :=
  { os := Mapping.mStr "os", cpu := Mapping.mStr "cpu_model",
    memory_gb := Mapping.mStr "memory_gb" }

/-- The three-item team_a batch of test_post_machines_partial_invalid_array:
two well-formed items around one string element. -/
def batchA : List Value :=
  [Value.vObj [("os", Value.vStr "Ubuntu 20.04"), ("cpu_model", Value.vStr "Xeon E5"),
     ("memory_gb", Value.vInt 64)],
   Value.vStr "invalid_item",
   Value.vObj [("os", Value.vStr "Debian 12"), ("cpu_model", Value.vStr "Ryzen 5"),
     ("memory_gb", Value.vInt 32)]]

/-- safe_lambda dispatches the RAM lambda string to ramInner. -/
lemma lambdaBody_ram (data : RawItem) :
    lambdaBody data ramLambda = (ramInner data).map some := by
  simp [lambdaBody]

/-- safe_lambda dispatches the KiB lambda string to kibInner. -/
lemma lambdaBody_kib (data : RawItem) :
    lambdaBody data kibLambda = kibInner data := by
  simp [lambdaBody, ramLambda, kibLambda]

/-- A successful transform body passes through safe_lambda unchanged. -/
lemma safe_lambda_of_ok (data : RawItem) (ls : String) (v : Option ℚ)
    (h : lambdaBody data ls = Except.ok v) : safe_lambda data ls = Except.ok v := by
  simp [safe_lambda, h]

/-- A caught exception inside safe_lambda is re-raised as a ValueError
prefixed with "Failed to parse memory: ". -/
lemma safe_lambda_of_caught (data : RawItem) (ls : String) (e : PyExn)
    (h : lambdaBody data ls = Except.error e) (hc : e.caught = true) :
    safe_lambda data ls =
      Except.error (PyExn.valueError ("Failed to parse memory: " ++ e.str)) := by
  simp [safe_lambda, h, hc]

/-- With no exact `RAM` key and none of the fallback names present, the RAM
transform fails with the KeyError text wrapped by safe_lambda. -/
lemma ram_no_candidate (data : RawItem) (h1 : hasKey data "RAM" = false)
    (h2 : ramFallbackFields.find? (fun f => hasKey data f) = none) :
    safe_lambda data ramLambda =
      Except.error (PyExn.valueError "Failed to parse memory: 'No valid memory field found'") := by
  have hb : ramInner data = Except.error (PyExn.keyError "No valid memory field found") := by
    simp [ramInner, h1, h2]
  have h3 := safe_lambda_of_caught data ramLambda (PyExn.keyError "No valid memory field found")
    (by rw [lambdaBody_ram, hb]; rfl) rfl
  simpa [PyExn.str] using h3

/-- With neither an exact `mem` nor an exact `memory_gb` key the KiB
transform returns None rather than failing. -/
lemma kib_no_exact_keys (data : RawItem) (h1 : hasKey data "mem" = false)
    (h2 : hasKey data "memory_gb" = false) :
    safe_lambda data kibLambda = Except.ok none := by
  apply safe_lambda_of_ok
  rw [lambdaBody_kib]
  simp [kibInner, h1, h2]

/-- With an exact `RAM` key the RAM transform reads exactly that key. -/
lemma ram_exact_key (data : RawItem) (h : hasKey data "RAM" = true) :
    ramInner data = extractNum data "RAM" := by
  simp [ramInner, h]

/-- Without `RAM`, the RAM transform reads the first present fallback name. -/
lemma ram_fallback_key (data : RawItem) (f : String) (h1 : hasKey data "RAM" = false)
    (h2 : ramFallbackFields.find? (fun f => hasKey data f) = some f) :
    ramInner data = extractNum data f := by
  simp [ramInner, h1, h2]

/-- The field the RAM transform reads is the exact key `RAM` when present,
else the first present fallback name; in either case the value handling is
extractNum of that field. -/
lemma ram_found_field (data : RawItem) (f : String)
    (hfound : (hasKey data "RAM" = true ∧ f = "RAM")
        ∨ (hasKey data "RAM" = false
            ∧ ramFallbackFields.find? (fun g => hasKey data g) = some f)) :
    ramInner data = extractNum data f := by
  rcases hfound with ⟨h1, h2⟩ | ⟨h1, h2⟩
  · subst h2
    exact ram_exact_key data h1
  · exact ram_fallback_key data f h1 h2

/-- A string is non-empty as soon as it differs from the empty literal. -/
lemma isEmpty_false_of_ne (s : String) (h : s ≠ "") : s.isEmpty = false := by
  rcases h2 : s.isEmpty with _ | _
  · rfl
  · exact absurd ((String.isEmpty_iff s).mp h2) h

/-- A non-empty, non-lambda string descriptor resolves to the first item key
whose ordinal lowercase equals the descriptor's. -/
lemma get_field_plain_str (data : RawItem) (desc : String)
    (hne : desc.isEmpty = false) (hl : pyStartsWith desc "lambda " = false)
    (k : String) (v : Value)
    (hf : data.find? (fun kv => lowerStr kv.1 == lowerStr desc) = some (k, v)) :
    get_field data (Mapping.mStr desc) = Except.ok (some v) := by
  simp [get_field, Mapping.falsy, hne, hl, lookupCI, hf]

/-- An accepted record passed the required-field validation: its os value is
truthy and its cpu string non-empty. -/
lemma processItem_accepted_invariant (maps : MappingSpec) (item : Value) (r : Record)
    (h : processItem maps item = ItemResult.accepted r) :
    r.os.truthy = true ∧ r.cpu.isEmpty = false := by
  cases item with
  | vObj fields =>
      simp only [processItem] at h
      repeat' split at h
      all_goals try exact ItemResult.noConfusion h
      rename_i hcond
      injection h with hr
      subst hr
      simp only [Bool.not_eq_true, Bool.or_eq_true, not_or, Bool.not_eq_true] at hcond
      refine ⟨?_, ?_⟩
      · have h1 := hcond.1
        simpa using h1
      · have h2 := hcond.2
        simpa using h2
  | vNull => simp [processItem] at h
  | vBool b => simp [processItem] at h
  | vInt n => simp [processItem] at h
  | vFloat q => simp [processItem] at h
  | vStr s => simp [processItem] at h
  | vList xs => simp [processItem] at h

/-- C1: batch fault isolation and accounting — the per-item loop of
post_machines never aborts, and every input item contributes exactly once:
either to the inserted count (with exactly one record) or to the errors
list, so inserted + errors.length = items.length. -/
theorem c1_batch_accounting (maps : MappingSpec) (items : List Value) :
    (post_machines maps items).inserted + (post_machines maps items).errors.length
      = items.length
    ∧ (post_machines maps items).records.length = (post_machines maps items).inserted := by
  induction items with
  | nil => exact ⟨rfl, rfl⟩
  | cons item rest ih =>
      obtain ⟨h1, h2⟩ := ih
      cases h : processItem maps item with
      | accepted r =>
          simp only [post_machines, h, List.length_cons]
          omega
      | rejected m =>
          simp only [post_machines, h, List.length_cons]
          omega

/-- C1 witness: the accounting instantiated on the concrete three-item
team_a batch. -/
theorem c1_batch_accounting_witness :
    (post_machines teamAMaps batchA).inserted
        + (post_machines teamAMaps batchA).errors.length = batchA.length
    ∧ (post_machines teamAMaps batchA).records.length
        = (post_machines teamAMaps batchA).inserted :=
  c1_batch_accounting teamAMaps batchA

/-- C2: when the memory_gb descriptor resolves to None (and cpu resolution
itself does not raise), the item is rejected with exactly the error
"Missing memory_gb field" and is never accepted. -/
theorem c2_missing_memory_skips (maps : MappingSpec) (fields : RawItem)
    (cpuRes : Option Value)
    (hcpu : get_field fields maps.cpu = Except.ok cpuRes)
    (hmem : get_field fields maps.memory_gb = Except.ok none) :
    processItem maps (Value.vObj fields) = ItemResult.rejected "Missing memory_gb field"
    ∧ ∀ r, processItem maps (Value.vObj fields) ≠ ItemResult.accepted r := by
  have h : processItem maps (Value.vObj fields)
      = ItemResult.rejected "Missing memory_gb field" := by
    simp only [processItem, hcpu, hmem]
  exact ⟨h, fun r hr => by rw [h] at hr; exact ItemResult.noConfusion hr⟩

/-- C2 witness: an item carrying only an os field is skipped with the
missing-memory error under the team_a mapping. -/
theorem c2_missing_memory_skips_witness :
    processItem teamAMaps (Value.vObj [("os", Value.vStr "u")])
      = ItemResult.rejected "Missing memory_gb field" :=
  (c2_missing_memory_skips teamAMaps [("os", Value.vStr "u")] none rfl rfl).1

/-- C3: the ram-string-first-token transform contract — exact `RAM` first
and then the fixed fallback list memory, mem, ram, Memory, memory_gb;
whichever field is found, a numeric value passes through as-is, a string
is split on whitespace with the first token parsed as a number, and the
transform fails when no candidate field exists or the first token is not
numeric; concretely RAM=16 gives 16, RAM="16 GB" gives 16, RAM="bad" is a
parse error, and likewise for fallback-found fields. -/
theorem c3_ram_first_token_contract :
    (∀ (data : RawItem) (f : String) (v : Value),
        ((hasKey data "RAM" = true ∧ f = "RAM")
          ∨ (hasKey data "RAM" = false
              ∧ ramFallbackFields.find? (fun g => hasKey data g) = some f)) →
        pyIndex data f = v → v.isNumber = true →
        safe_lambda data ramLambda = Except.ok (some v.numToFloat))
    ∧ (∀ (data : RawItem) (f s t : String) (ts : List String) (q : ℚ),
        ((hasKey data "RAM" = true ∧ f = "RAM")
          ∨ (hasKey data "RAM" = false
              ∧ ramFallbackFields.find? (fun g => hasKey data g) = some f)) →
        pyIndex data f = Value.vStr s →
        pySplit s = t :: ts → pyFloatOfString t = Except.ok q →
        safe_lambda data ramLambda = Except.ok (some q))
    ∧ (∀ (data : RawItem) (f s t : String) (ts : List String) (m : String),
        ((hasKey data "RAM" = true ∧ f = "RAM")
          ∨ (hasKey data "RAM" = false
              ∧ ramFallbackFields.find? (fun g => hasKey data g) = some f)) →
        pyIndex data f = Value.vStr s →
        pySplit s = t :: ts → pyFloatOfString t = Except.error (PyExn.valueError m) →
        safe_lambda data ramLambda =
          Except.error (PyExn.valueError ("Failed to parse memory: " ++ m)))
    ∧ (∀ data : RawItem, hasKey data "RAM" = false →
        ramFallbackFields.find? (fun g => hasKey data g) = none →
        safe_lambda data ramLambda =
          Except.error (PyExn.valueError "Failed to parse memory: 'No valid memory field found'"))
    ∧ ramFallbackFields = ["memory", "mem", "ram", "Memory", "memory_gb"]
    ∧ safe_lambda [("RAM", Value.vInt 16)] ramLambda = Except.ok (some 16)
    ∧ safe_lambda [("RAM", Value.vStr "16 GB")] ramLambda = Except.ok (some 16)
    ∧ safe_lambda [("RAM", Value.vStr "bad")] ramLambda =
        Except.error (PyExn.valueError
          "Failed to parse memory: could not convert string to float: 'bad'")
    ∧ safe_lambda [("memory", Value.vStr "16 GB")] ramLambda = Except.ok (some 16)
    ∧ safe_lambda [("mem", Value.vStr "bad")] ramLambda =
        Except.error (PyExn.valueError
          "Failed to parse memory: could not convert string to float: 'bad'")
    ∧ safe_lambda [("mem", Value.vInt 1), ("memory", Value.vInt 2)] ramLambda
        = Except.ok (some 2)
    ∧ safe_lambda [("memory_gb", Value.vInt 3), ("RAM", Value.vInt 4)] ramLambda
        = Except.ok (some 4) := by
  refine ⟨?_, ?_, ?_, ?_, rfl, rfl, rfl, rfl, rfl, rfl, rfl, rfl⟩
  · intro data f v hfound hv hn
    apply safe_lambda_of_ok
    rw [lambdaBody_ram, ram_found_field data f hfound]
    simp [extractNum, hv, hn, Except.map]
  · intro data f s t ts q hfound hv hsp hq
    apply safe_lambda_of_ok
    rw [lambdaBody_ram, ram_found_field data f hfound]
    simp [extractNum, hv, splitFirstFloat, hsp, hq, Value.isNumber, Except.map]
  · intro data f s t ts m hfound hv hsp hq
    have hb : ramInner data = Except.error (PyExn.valueError m) := by
      rw [ram_found_field data f hfound]
      simp [extractNum, hv, splitFirstFloat, hsp, hq, Value.isNumber]
    have h3 := safe_lambda_of_caught data ramLambda (PyExn.valueError m)
      (by rw [lambdaBody_ram, hb]; rfl) rfl
    simpa [PyExn.str] using h3
  · intro data h1 h2
    exact ram_no_candidate data h1 h2

/-- C3 witness: the numeric-passthrough clause exercised on a
fallback-found field (lowercase `ram`), with the exact key absent. -/
theorem c3_ram_first_token_contract_witness :
    safe_lambda [("ram", Value.vInt 8)] ramLambda
      = Except.ok (some ((Value.vInt 8).numToFloat)) :=
  c3_ram_first_token_contract.1 [("ram", Value.vInt 8)] "ram" (Value.vInt 8)
    (Or.inr ⟨rfl, rfl⟩) rfl rfl

/-- C4 counterexample: with neither a `mem` nor a `memory_gb` key the
kib-to-gib transform returns None without raising, so the claim that it
fails with a ResolutionError when neither field exists is false. -/
theorem c4_kib_counterexample :
    safe_lambda [("other", Value.vInt 1)] kibLambda = Except.ok none := rfl

/-- C4 amended: kib-to-gib divides a float-coercible `mem` value by 1024
(mem=32768 gives 32.0), takes `memory_gb` verbatim when `mem` is absent
(memory_gb=64 gives 64.0), fails when a found value — from either field —
cannot be coerced, but returns None — no error — when neither field
exists. -/
theorem c4_kib_to_gib_amended :
    (∀ (data : RawItem) (q : ℚ), hasKey data "mem" = true →
        pyFloat (pyIndex data "mem") = Except.ok q →
        safe_lambda data kibLambda = Except.ok (some (q / 1024)))
    ∧ (∀ (data : RawItem) (q : ℚ), hasKey data "mem" = false →
        hasKey data "memory_gb" = true →
        pyFloat (pyIndex data "memory_gb") = Except.ok q →
        safe_lambda data kibLambda = Except.ok (some q))
    ∧ (∀ data : RawItem, hasKey data "mem" = false → hasKey data "memory_gb" = false →
        safe_lambda data kibLambda = Except.ok none)
    ∧ (∀ (data : RawItem) (e : PyExn), hasKey data "mem" = true →
        pyFloat (pyIndex data "mem") = Except.error e →
        ∃ e2 : PyExn, safe_lambda data kibLambda = Except.error e2)
    ∧ (∀ (data : RawItem) (e : PyExn), hasKey data "mem" = false →
        hasKey data "memory_gb" = true →
        pyFloat (pyIndex data "memory_gb") = Except.error e →
        ∃ e2 : PyExn, safe_lambda data kibLambda = Except.error e2)
    ∧ safe_lambda [("memory_gb", Value.vStr "abc")] kibLambda =
        Except.error (PyExn.valueError
          "Failed to parse memory: could not convert string to float: 'abc'")
    ∧ safe_lambda [("mem", Value.vStr "abc")] kibLambda =
        Except.error (PyExn.valueError
          "Failed to parse memory: could not convert string to float: 'abc'")
    ∧ safe_lambda [("mem", Value.vInt 32768)] kibLambda = Except.ok (some 32)
    ∧ safe_lambda [("memory_gb", Value.vInt 64)] kibLambda = Except.ok (some 64) := by
  have hmem32 : safe_lambda [("mem", Value.vInt 32768)] kibLambda
      = Except.ok (some ((32768 : ℚ) / 1024)) := rfl
  refine ⟨?_, ?_, ?_, ?_, ?_, rfl, rfl, ?_, rfl⟩
  · intro data q h1 hq
    apply safe_lambda_of_ok
    rw [lambdaBody_kib]
    simp [kibInner, h1, hq, Except.map]
  · intro data q h1 h2 hq
    apply safe_lambda_of_ok
    rw [lambdaBody_kib]
    simp [kibInner, h1, h2, hq, Except.map]
  · intro data h1 h2
    exact kib_no_exact_keys data h1 h2
  · intro data e h1 he
    have hb : lambdaBody data kibLambda = Except.error e := by
      rw [lambdaBody_kib]
      simp [kibInner, h1, he, Except.map]
    rcases hc : e.caught with _ | _
    · exact ⟨e, by simp [safe_lambda, hb, hc]⟩
    · exact ⟨PyExn.valueError ("Failed to parse memory: " ++ e.str),
        safe_lambda_of_caught data kibLambda e hb hc⟩
  · intro data e h1 h2 he
    have hb : lambdaBody data kibLambda = Except.error e := by
      rw [lambdaBody_kib]
      simp [kibInner, h1, h2, he, Except.map]
    rcases hc : e.caught with _ | _
    · exact ⟨e, by simp [safe_lambda, hb, hc]⟩
    · exact ⟨PyExn.valueError ("Failed to parse memory: " ++ e.str),
        safe_lambda_of_caught data kibLambda e hb hc⟩
  · rw [hmem32]
    norm_num

/-- C4 witness: the mem-division clause instantiated at mem=2048. -/
theorem c4_kib_to_gib_amended_witness :
    safe_lambda [("mem", Value.vInt 2048)] kibLambda = Except.ok (some ((2048 : ℚ) / 1024)) :=
  c4_kib_to_gib_amended.1 [("mem", Value.vInt 2048)] ((2048 : Int) : ℚ) rfl rfl

/-- C5 counterexample: a field stored under OperatingSystem does NOT
resolve under the descriptor string "operating_system" (its ordinal
lowercase "operatingsystem" differs by the underscore), contradicting the
claim's example. -/
theorem c5_underscore_counterexample :
    get_field [("OperatingSystem", Value.vStr "Debian 12")] (Mapping.mStr "operating_system")
      = Except.ok none := rfl

/-- C5 amended: a field stored under OperatingSystem resolves under any
case variant of "operatingsystem" (no underscore); case-insensitive lookup
compares each item key to the descriptor by ordinal lowercase equality,
first match in iteration order winning. -/
theorem c5_case_insensitive_amended :
    (∀ (desc : String) (v : Value) (rest : RawItem),
        lowerStr desc = "operatingsystem" → pyStartsWith desc "lambda " = false →
        get_field (("OperatingSystem", v) :: rest) (Mapping.mStr desc) = Except.ok (some v))
    ∧ (∀ (data : RawItem) (desc k : String) (v : Value),
        desc.isEmpty = false → pyStartsWith desc "lambda " = false →
        data.find? (fun kv => lowerStr kv.1 == lowerStr desc) = some (k, v) →
        get_field data (Mapping.mStr desc) = Except.ok (some v))
    ∧ get_field [("OperatingSystem", Value.vStr "x")] (Mapping.mStr "OPERATINGSYSTEM")
        = Except.ok (some (Value.vStr "x"))
    ∧ get_field [("OperatingSystem", Value.vStr "x")] (Mapping.mStr "operatingsystem")
        = Except.ok (some (Value.vStr "x"))
    ∧ get_field [("operating_system", Value.vStr "y")] (Mapping.mStr "Operating_System")
        = Except.ok (some (Value.vStr "y"))
    ∧ get_field [("OperatingSystem", Value.vStr "first"), ("operatingsystem", Value.vStr "second")]
        (Mapping.mStr "OPERATINGSYSTEM") = Except.ok (some (Value.vStr "first")) := by
  refine ⟨?_, ?_, rfl, rfl, rfl, rfl⟩
  · intro desc v rest hlow hl
    have hne : desc.isEmpty = false := by
      apply isEmpty_false_of_ne
      intro he
      rw [he] at hlow
      exact absurd hlow (by decide)
    apply get_field_plain_str _ _ hne hl "OperatingSystem" v
    have hkv : lowerStr "OperatingSystem" == lowerStr desc := by
      rw [hlow]
      decide
    simp [List.find?, hkv]
  · intro data desc k v hne hl hf
    exact get_field_plain_str data desc hne hl k v hf

/-- C5 witness: the first clause instantiated at the mixed-case variant
OperatingSYSTEM. -/
theorem c5_case_insensitive_amended_witness :
    get_field [("OperatingSystem", Value.vStr "Debian 12")] (Mapping.mStr "OperatingSYSTEM")
      = Except.ok (some (Value.vStr "Debian 12")) :=
  c5_case_insensitive_amended.1 "OperatingSYSTEM" (Value.vStr "Debian 12") [] rfl rfl

/-- C6: on the three-item team_a batch whose middle element is a string,
the loop does skip the element, processes the rest (two records inserted)
and records exactly one error — but the recorded message is
"Item is not a valid JSON object" with no item index, not the
"Item 1 is not a valid JSON object" that test.py asserts. -/
theorem c6_malformed_item_error_has_no_index :
    post_machines teamAMaps batchA =
      { inserted := 2,
        records := [{ os := Value.vStr "Ubuntu 20.04", cpu := "Xeon E5", memory_gb := 64 },
                    { os := Value.vStr "Debian 12", cpu := "Ryzen 5", memory_gb := 32 }],
        errors := ["Item is not a valid JSON object"] }
    ∧ "Item is not a valid JSON object" ≠ "Item 1 is not a valid JSON object" :=
  ⟨rfl, by decide⟩

/-- C7 counterexample: a memory value of "abc" fails the item with the
stringified float() exception, not with "memory_gb must be a number". -/
theorem c7_message_counterexample :
    processItem teamAMaps
      (Value.vObj [("os", Value.vStr "u"), ("cpu_model", Value.vStr "c"),
        ("memory_gb", Value.vStr "abc")])
      = ItemResult.rejected "could not convert string to float: 'abc'"
    ∧ "could not convert string to float: 'abc'" ≠ "memory_gb must be a number" :=
  ⟨rfl, by decide⟩

/-- C7 amended: when the resolved memory value cannot be coerced by
float(), the item is failed — with one error entry whose text is the
coercion exception's own message — and is never accepted. -/
theorem c7_coercion_failure_amended (maps : MappingSpec) (fields : RawItem)
    (cpuRes osRes : Option Value) (mv : Value) (e : PyExn)
    (hcpu : get_field fields maps.cpu = Except.ok cpuRes)
    (hmem : get_field fields maps.memory_gb = Except.ok (some mv))
    (hos : get_field fields maps.os = Except.ok osRes)
    (hfloat : pyFloat mv = Except.error e) :
    processItem maps (Value.vObj fields) = ItemResult.rejected e.str
    ∧ ∀ r, processItem maps (Value.vObj fields) ≠ ItemResult.accepted r := by
  have h : processItem maps (Value.vObj fields) = ItemResult.rejected e.str := by
    simp only [processItem, hcpu, hmem, hos, hfloat]
  exact ⟨h, fun r hr => by rw [h] at hr; exact ItemResult.noConfusion hr⟩

/-- C7 witness: the amended failure behavior at the concrete memory string
"zzz". -/
theorem c7_coercion_failure_amended_witness :
    processItem teamAMaps
      (Value.vObj [("os", Value.vStr "u"), ("cpu_model", Value.vStr "c"),
        ("memory_gb", Value.vStr "zzz")])
      = ItemResult.rejected
          (PyExn.valueError "could not convert string to float: 'zzz'").str :=
  (c7_coercion_failure_amended teamAMaps
    [("os", Value.vStr "u"), ("cpu_model", Value.vStr "c"), ("memory_gb", Value.vStr "zzz")]
    (some (Value.vStr "c")) (some (Value.vStr "u")) (Value.vStr "zzz")
    (PyExn.valueError "could not convert string to float: 'zzz'")
    rfl rfl rfl rfl).1

/-- C8 counterexample: an item with os=5 (not a string) and memory -5 is
accepted as a record whose memory_gb is negative, so the claimed
non-negativity (and string-ness of os) is not enforced. -/
theorem c8_negative_memory_counterexample :
    post_machines teamAMaps
      [Value.vObj [("os", Value.vInt 5), ("cpu_model", Value.vStr "c"),
        ("memory_gb", Value.vInt (-5))]]
      = { inserted := 1,
          records := [{ os := Value.vInt 5, cpu := "c", memory_gb := -5 }],
          errors := [] }
    ∧ ((-5 : ℚ) < 0) :=
  ⟨rfl, by norm_num⟩

/-- C8 amended: every accepted record has a truthy os value and a
non-empty cpu string (memory_gb is always present by construction, as a
rational, but may be negative and os need not be a string). -/
theorem c8_accepted_invariant_amended (maps : MappingSpec) (items : List Value) :
    ∀ r ∈ (post_machines maps items).records,
      r.os.truthy = true ∧ r.cpu.isEmpty = false := by
  induction items with
  | nil => intro r hr; simp [post_machines] at hr
  | cons item rest ih =>
      intro r hr
      cases h : processItem maps item with
      | accepted r0 =>
          simp only [post_machines, h] at hr
          rcases List.mem_cons.mp hr with h1 | h2
          · subst h1
            exact processItem_accepted_invariant maps item r h
          · exact ih r h2
      | rejected m =>
          simp only [post_machines, h] at hr
          exact ih r hr

/-- C8 witness: the invariant holds of a concrete record accepted from the
team_a batch. -/
theorem c8_accepted_invariant_amended_witness :
    ({ os := Value.vStr "Ubuntu 20.04", cpu := "Xeon E5", memory_gb := 64 } : Record).os.truthy
      = true
    ∧ ({ os := Value.vStr "Ubuntu 20.04", cpu := "Xeon E5", memory_gb := 64 } : Record).cpu.isEmpty
      = false :=
  c8_accepted_invariant_amended teamAMaps batchA
    { os := Value.vStr "Ubuntu 20.04", cpu := "Xeon E5", memory_gb := 64 }
    (List.mem_cons_self _ _)

/-- C9 counterexample: an item whose cpu descriptor resolves to the
present-but-falsy value 0 but whose memory key is absent is rejected with
"Missing memory_gb field" — the memory check at line 224 fires before the
required-field validation — not with the claimed
"Missing required fields (os or cpu)". -/
theorem c9_memory_first_counterexample :
    get_field [("os", Value.vStr "u"), ("cpu_model", Value.vInt 0)] teamAMaps.cpu
      = Except.ok (some (Value.vInt 0))
    ∧ (Value.vInt 0).truthy = false
    ∧ processItem teamAMaps
        (Value.vObj [("os", Value.vStr "u"), ("cpu_model", Value.vInt 0)])
        = ItemResult.rejected "Missing memory_gb field"
    ∧ "Missing memory_gb field" ≠ "Missing required fields (os or cpu)" :=
  ⟨rfl, rfl, rfl, by decide⟩

/-- C9 amended: a present-but-falsy resolved os or cpu value (0, "", [],
False) is replaced by the empty string and the item is never accepted;
when the memory step succeeds (resolves non-null and coerces) the
rejection message is "Missing required fields (os or cpu)", while an item
whose memory_gb resolves to None is rejected earlier with
"Missing memory_gb field". -/
theorem c9_falsy_required_fields_amended (maps : MappingSpec) (fields : RawItem)
    (cpuRes osRes : Option Value)
    (hcpu : get_field fields maps.cpu = Except.ok cpuRes)
    (hos : get_field fields maps.os = Except.ok osRes)
    (hfalsy : (∃ v, cpuRes = some v ∧ v.truthy = false)
            ∨ (∃ v, osRes = some v ∧ v.truthy = false)) :
    (∀ v : Value, v.truthy = false → orEmptyStr (some v) = Value.vStr "")
    ∧ (∀ r, processItem maps (Value.vObj fields) ≠ ItemResult.accepted r)
    ∧ (∀ (mv : Value) (q : ℚ),
        get_field fields maps.memory_gb = Except.ok (some mv) →
        pyFloat mv = Except.ok q →
        processItem maps (Value.vObj fields)
          = ItemResult.rejected "Missing required fields (os or cpu)")
    ∧ (get_field fields maps.memory_gb = Except.ok none →
        processItem maps (Value.vObj fields)
          = ItemResult.rejected "Missing memory_gb field") := by
  have horE : ∀ v : Value, v.truthy = false → orEmptyStr (some v) = Value.vStr "" := by
    intro v hv
    simp [orEmptyStr, hv]
  have hval : ∀ (mv : Value) (q : ℚ),
      get_field fields maps.memory_gb = Except.ok (some mv) →
      pyFloat mv = Except.ok q →
      processItem maps (Value.vObj fields)
        = ItemResult.rejected "Missing required fields (os or cpu)" := by
    intro mv q hmem hq
    rcases hfalsy with ⟨v, hv, hvf⟩ | ⟨v, hv, hvf⟩
    · subst hv
      simp only [processItem, hcpu, hmem, hos, hq, horE v hvf]
      simp [normalize_cpu, pyStr]
      intro _
      decide
    · subst hv
      simp only [processItem, hcpu, hmem, hos, hq, horE v hvf]
      simp [Value.truthy]
      intro hfalse
      exact absurd hfalse (by decide)
  have hmemnone : get_field fields maps.memory_gb = Except.ok none →
      processItem maps (Value.vObj fields)
        = ItemResult.rejected "Missing memory_gb field" := by
    intro hmem
    simp only [processItem, hcpu, hmem]
  have hnotacc : ∀ r, processItem maps (Value.vObj fields) ≠ ItemResult.accepted r := by
    intro r hr
    cases hmem : get_field fields maps.memory_gb with
    | error e =>
        have hrej : processItem maps (Value.vObj fields)
            = ItemResult.rejected e.str := by
          simp only [processItem, hcpu, hmem]
        rw [hrej] at hr
        exact ItemResult.noConfusion hr
    | ok mo =>
        cases mo with
        | none =>
            rw [hmemnone hmem] at hr
            exact ItemResult.noConfusion hr
        | some mv =>
            cases hq : pyFloat mv with
            | error e2 =>
                have hrej : processItem maps (Value.vObj fields)
                    = ItemResult.rejected e2.str := by
                  simp only [processItem, hcpu, hmem, hos, hq]
                rw [hrej] at hr
                exact ItemResult.noConfusion hr
            | ok q =>
                rw [hval mv q hmem hq] at hr
                exact ItemResult.noConfusion hr
  exact ⟨horE, hnotacc, hval, hmemnone⟩

/-- C9 witness: os resolving to the number 0 on an item whose memory
coerces rejects the item with the required-fields error. -/
theorem c9_falsy_required_fields_amended_witness :
    processItem teamAMaps
      (Value.vObj [("os", Value.vInt 0), ("cpu_model", Value.vStr "c"),
        ("memory_gb", Value.vInt 4)])
      = ItemResult.rejected "Missing required fields (os or cpu)" :=
  (c9_falsy_required_fields_amended teamAMaps
    [("os", Value.vInt 0), ("cpu_model", Value.vStr "c"), ("memory_gb", Value.vInt 4)]
    (some (Value.vStr "c")) (some (Value.vInt 0))
    rfl rfl (Or.inr ⟨Value.vInt 0, rfl, rfl⟩)).2.2.1
    (Value.vInt 4) ((4 : Int) : ℚ) rfl rfl

/-- C10: the named transforms look keys up by exact case, unlike the
case-insensitive descriptor lookup — Mem under kib-to-gib resolves to None
and MEM under ram-string-first-token fails with the no-candidate error,
while the plain descriptor "mem" does find the key "Mem". -/
theorem c10_transform_lookup_exact_case :
    safe_lambda [("Mem", Value.vInt 32768)] kibLambda = Except.ok none
    ∧ safe_lambda [("MEM", Value.vStr "16 GB")] ramLambda =
        Except.error (PyExn.valueError "Failed to parse memory: 'No valid memory field found'")
    ∧ (∀ data : RawItem, hasKey data "mem" = false → hasKey data "memory_gb" = false →
        safe_lambda data kibLambda = Except.ok none)
    ∧ (∀ data : RawItem, hasKey data "RAM" = false →
        ramFallbackFields.find? (fun f => hasKey data f) = none →
        safe_lambda data ramLambda =
          Except.error (PyExn.valueError "Failed to parse memory: 'No valid memory field found'"))
    ∧ get_field [("Mem", Value.vInt 32768)] (Mapping.mStr "mem")
        = Except.ok (some (Value.vInt 32768)) := by
  refine ⟨rfl, rfl, ?_, ?_, rfl⟩
  · intro data h1 h2
    exact kib_no_exact_keys data h1 h2
  · intro data h1 h2
    exact ram_no_candidate data h1 h2

/-- C10 witness: the kib clause instantiated at the case-variant key MEM. -/
theorem c10_transform_lookup_exact_case_witness :
    safe_lambda [("MEM", Value.vInt 7)] kibLambda = Except.ok none :=
  c10_transform_lookup_exact_case.2.2.1 [("MEM", Value.vInt 7)] rfl rfl

end MachineNorm
